import Mathlib

/-
Verification development for the async-jsonrpc WebSocket client engine.

The definitions below are a shallow embedding of the Rust sources:
  * `src/ws_client/manager.rs`  — the task manager (pending-entry table plus
    the subscription-id → request-id reverse index);
  * `src/ws_client/task.rs`     — the connection task: outbound id
    assignment, envelope serialization, and the inbound dispatch handlers;
  * `types/src/v2/{request,response,notification}.rs`, `types/src/id.rs`
    — the JSON-RPC 2.0 envelope types and their serde serialization
    contract.

Modelling conventions:
  * `u64` values are `Nat` with explicit wrapping `% 2^64` where the source
    uses `wrapping_add`.
  * `HashMap` state is an association list with unique keys; insertion
    conses (the source only inserts into a vacant entry) and removal
    filters the key out.
  * A `futures::channel::oneshot::Sender` is an abstract token (`Nat`);
    whether its receiver is still alive is an environment `alive : Nat →
    Bool`.  A completed send is recorded as a `Reply`; `send(..).expect(m)`
    panics with `m` when the receiver is gone.
  * A `futures::channel::mpsc::Sender` for subscription notifications is a
    `Sink`: a queue with a capacity bound and a disconnected flag;
    `try_send` succeeds exactly when the sink is connected and not full.
  * Rust panics (`expect`, `unreachable!`, `assert!`) are made explicit via
    the `panicked` constructor of the result types.
  * serde decoding of inbound text frames is external to the engine; the
    inbound event already carries the decode alternative the source
    obtains from its ordered `from_str` attempts.
-/

namespace AsyncJsonrpc

/-- Lookup in an association list, mirroring `HashMap::get`. -/
def alookup {α β : Type} [DecidableEq α] (k : α) : List (α × β) → Option β
  | [] => none
  | (a, b) :: t => if a = k then some b else alookup k t

/-- Remove every entry with key `k`, mirroring `HashMap` entry removal
(keys are unique in every reachable state). -/
def eraseKey {α β : Type} [DecidableEq α] (k : α) (l : List (α × β)) : List (α × β) :=
  l.filter (fun p => decide (p.1 ≠ k))

/-- Keys of an association list. -/
def keysOf {α β : Type} (l : List (α × β)) : List α :=
  l.map (fun p => p.1)

/-- JSON-RPC request/response id (`types/src/id.rs`): a non-negative 64-bit
integer or a string. -/
inductive Id where
  | num (n : Nat)
  | str (s : String)
deriving DecidableEq, Repr

/-- `Id::as_number` from `types/src/id.rs`. -/
def Id.as_number : Id → Option Nat
  | .num n => some n
  | .str _ => none

/-- A JSON value (`serde_json::Value`), as far as the engine inspects it. -/
inductive Json where
  | null
  | bool (b : Bool)
  | num (n : Int)
  | str (s : String)
  | arr (xs : List Json)
  | obj (fields : List (String × Json))

/-- Request parameters (`Params` in `types/src/v2/params.rs`): positional
array or named map. -/
inductive Params where
  | arr (xs : List Json)
  | map (fields : List (String × Json))

/-- `serde_json::from_value::<Id>` applied to a result value: an untagged
`Id` parses from a non-negative integer within `u64` or from a string. -/
def parseJsonAsId (v : Json) : Except Unit Id :=
  match v with
  | .num n => if 0 ≤ n ∧ n < (2 : Int) ^ 64 then .ok (.num n.toNat) else .error ()
  | .str s => .ok (.str s)
  | _ => .error ()

/-- `serde_json::from_value::<bool>` applied to a result value. -/
def parseJsonAsBool (v : Json) : Except Unit Bool :=
  match v with
  | .bool b => .ok b
  | _ => .error ()

/-- Error object carried by a failure response (`Error` in
`types/src/v2/error.rs`); the engine never inspects it. -/
structure ErrorObject where
  code : Int
  message : String

/-- Success response (`Success` in `types/src/v2/response.rs`). -/
structure Success where
  result : Json
  id : Id

/-- Failure response (`Failure` in `types/src/v2/response.rs`); the id MAY
be null. -/
structure Failure where
  error : ErrorObject
  id : Option Id

/-- Single response (`Response` in `types/src/v2/response.rs`; `Output` in
the older in-crate types). -/
inductive Response where
  | success (s : Success)
  | failure (f : Failure)

/-- `Response::id` from `types/src/v2/response.rs`. -/
def Response.id : Response → Option Id
  | .success s => some s.id
  | .failure f => f.id

/-- Response object: single or batch (`ResponseObj` in
`types/src/v2/response.rs`; `Response` in the older in-crate types). -/
inductive ResponseObj where
  | single (r : Response)
  | batch (rs : List Response)

/-- Parameters of a subscription notification
(`SubscriptionNotificationParams` in `types/src/v2/notification.rs`). -/
structure SubNotifParams where
  subscription : Id
  result : Json

/-- Server-push subscription notification (`SubscriptionNotification` in
`types/src/v2/notification.rs`). -/
structure SubNotif where
  method : String
  params : SubNotifParams

/-- Transport-level WebSocket error (`WsError`). -/
inductive WsError where
  | connectionClosed
  | sendFailed
deriving DecidableEq, Repr

/-- Client-facing error kind (`WsClientError` in `error.rs`). -/
inductive WsClientError where
  | json
  | webSocket (e : WsError)
  | requestTimeout
  | duplicateRequestId
  | invalidRequestId
  | invalidSubscriptionId
  | invalidUnsubscribeResult
  | internalChannel
deriving DecidableEq, Repr

/-- Bounded mpsc sender for subscription notifications: the channel model
behind `mpsc::Sender<SubscriptionNotification>`. -/
structure Sink where
  queue : List SubNotif
  capacity : Nat
  disconnected : Bool

/-- Fresh channel of the given capacity (`mpsc::channel(cap)`). -/
def Sink.new (cap : Nat) : Sink :=
  { queue := [], capacity := cap, disconnected := false }

/-- `Sender::try_send`: non-blocking; fails when the channel is full or
disconnected, succeeds by enqueueing otherwise. -/
def Sink.try_send (s : Sink) (n : SubNotif) : Except Unit Sink :=
  if s.disconnected ∨ s.capacity ≤ s.queue.length then .error ()
  else .ok { s with queue := s.queue ++ [n] }

/-- Pending-entry variants of the task manager (`RequestKind` in
`src/ws_client/manager.rs`).  One-shot senders are abstract tokens. -/
inductive RequestKind where
  | pendingMethodCall (send_back : Nat)
  | pendingBatchMethodCall (send_back : Nat)
  | pendingSubscription (send_back : Nat) (unsubscribe_method : String)
  | activeSubscription (sink : Sink) (unsubscribe_method : String)

/-- `RequestStatus` from `src/ws_client/manager.rs`. -/
inductive RequestStatus where
  | pendingMethodCall
  | pendingBatchMethodCall
  | pendingSubscription
  | activeSubscription
  | invalid
deriving DecidableEq, Repr

/-- The task manager (`TaskManager` in `src/ws_client/manager.rs`):
requests table, subscription-id → request-id index, and the per-channel
capacity configuration. -/
structure TaskManager where
  requests : List (Nat × RequestKind)
  subscriptions : List (Id × Nat)
  max_capacity_per_subscription : Nat

/-- `TaskManager::new`. -/
def TaskManager.new (cap : Nat) : TaskManager :=
  { requests := [], subscriptions := [], max_capacity_per_subscription := cap }

/-- `TaskManager::insert_pending_method_call`: insert into a vacant entry,
return the one-shot back on a duplicate request id. -/
def TaskManager.insert_pending_method_call (m : TaskManager) (request_id : Nat)
    (send_back : Nat) : Except Nat TaskManager :=
  match alookup request_id m.requests with
  | none => .ok { m with requests := (request_id, .pendingMethodCall send_back) :: m.requests }
  | some _ => .error send_back

/-- `TaskManager::complete_pending_method_call`: remove and return the
entry when it is a `PendingMethodCall`, `None` otherwise. -/
def TaskManager.complete_pending_method_call (m : TaskManager) (request_id : Nat) :
    Option (Nat × TaskManager) :=
  match alookup request_id m.requests with
  | some (.pendingMethodCall send_back) =>
      some (send_back, { m with requests := eraseKey request_id m.requests })
  | _ => none

/-- `TaskManager::insert_pending_batch_method_call`. -/
def TaskManager.insert_pending_batch_method_call (m : TaskManager) (min_request_id : Nat)
    (send_back : Nat) : Except Nat TaskManager :=
  match alookup min_request_id m.requests with
  | none => .ok { m with requests := (min_request_id, .pendingBatchMethodCall send_back) :: m.requests }
  | some _ => .error send_back

/-- `TaskManager::complete_pending_batch_method_call`. -/
def TaskManager.complete_pending_batch_method_call (m : TaskManager) (min_request_id : Nat) :
    Option (Nat × TaskManager) :=
  match alookup min_request_id m.requests with
  | some (.pendingBatchMethodCall send_back) =>
      some (send_back, { m with requests := eraseKey min_request_id m.requests })
  | _ => none

/-- `TaskManager::insert_pending_subscription`. -/
def TaskManager.insert_pending_subscription (m : TaskManager) (request_id : Nat)
    (send_back : Nat) (unsubscribe_method : String) : Except Nat TaskManager :=
  match alookup request_id m.requests with
  | none => .ok { m with requests := (request_id, .pendingSubscription send_back unsubscribe_method) :: m.requests }
  | some _ => .error send_back

/-- `TaskManager::complete_pending_subscription`. -/
def TaskManager.complete_pending_subscription (m : TaskManager) (request_id : Nat) :
    Option ((Nat × String) × TaskManager) :=
  match alookup request_id m.requests with
  | some (.pendingSubscription send_back unsubscribe_method) =>
      some ((send_back, unsubscribe_method), { m with requests := eraseKey request_id m.requests })
  | _ => none

/-- `TaskManager::insert_active_subscription`: requires both the request id
and the subscription id to be vacant; inserts the entry and the index
mapping, returns the sink back on any collision. -/
def TaskManager.insert_active_subscription (m : TaskManager) (request_id : Nat)
    (subscription_id : Id) (send_back : Sink) (unsubscribe_method : String) :
    Except Sink TaskManager :=
  match alookup request_id m.requests, alookup subscription_id m.subscriptions with
  | none, none =>
      .ok { m with
              requests := (request_id, .activeSubscription send_back unsubscribe_method) :: m.requests,
              subscriptions := (subscription_id, request_id) :: m.subscriptions }
  | _, _ => .error send_back

/-- Result of an operation that can panic. -/
inductive PResult (α : Type) where
  | ok (a : α)
  | panicked (msg : String)

/-- `TaskManager::remove_active_subscription`: the source removes both
entries whenever the two keys are occupied — without checking that the
index maps `subscription_id` to `request_id` — and then hits
`unreachable!` when the removed entry is not an `ActiveSubscription`. -/
def TaskManager.remove_active_subscription (m : TaskManager) (request_id : Nat)
    (subscription_id : Id) : PResult (Option (Sink × String) × TaskManager) :=
  match alookup request_id m.requests, alookup subscription_id m.subscriptions with
  | some kind, some _ =>
      match kind with
      | .activeSubscription sink unsubscribe_method =>
          .ok (some (sink, unsubscribe_method),
               { m with
                   requests := eraseKey request_id m.requests,
                   subscriptions := eraseKey subscription_id m.subscriptions })
      | _ => .panicked "Kind must be ActiveSubscription; qed"
  | _, _ => .ok (none, m)

/-- `TaskManager::get_request_id_by`. -/
def TaskManager.get_request_id_by (m : TaskManager) (subscription_id : Id) : Option Nat :=
  alookup subscription_id m.subscriptions

/-- `TaskManager::request_status`. -/
def TaskManager.request_status (m : TaskManager) (request_id : Nat) : RequestStatus :=
  match alookup request_id m.requests with
  | none => .invalid
  | some (.pendingMethodCall _) => .pendingMethodCall
  | some (.pendingBatchMethodCall _) => .pendingBatchMethodCall
  | some (.pendingSubscription _ _) => .pendingSubscription
  | some (.activeSubscription _ _) => .activeSubscription

/-- `TaskManager::as_active_subscription_mut` (read half): the sink when
the entry is an `ActiveSubscription`. -/
def TaskManager.as_active_subscription (m : TaskManager) (request_id : Nat) : Option Sink :=
  match alookup request_id m.requests with
  | some (.activeSubscription sink _) => some sink
  | _ => none

/-- `TaskManager::as_active_subscription_mut` (write half): store an
updated sink back into the `ActiveSubscription` entry. -/
def TaskManager.set_active_sink (m : TaskManager) (request_id : Nat) (sink : Sink) : TaskManager :=
  { m with
      requests := m.requests.map (fun p =>
        if p.1 = request_id then
          match p.2 with
          | .activeSubscription _ u => (p.1, .activeSubscription sink u)
          | k => (p.1, k)
        else p) }

/-- Minimal JSON string escaping as performed by serde for the values the
engine emits. -/
def escapeString (s : String) : String :=
  s.data.foldl (fun acc c =>
    if c = '"' then acc ++ "\\\""
    else if c = '\\' then acc ++ "\\\\"
    else if c = '\n' then acc ++ "\\n"
    else if c = '\t' then acc ++ "\\t"
    else if c = '\r' then acc ++ "\\r"
    else acc.push c) ""

mutual

/-- `serde_json::to_string` on a JSON value. -/
def Json.render : Json → String
  | .null => "null"
  | .bool true => "true"
  | .bool false => "false"
  | .num n => toString n
  | .str s => "\"" ++ escapeString s ++ "\""
  | .arr xs => "[" ++ renderArr xs ++ "]"
  | .obj fs => "\x7b" ++ renderObj fs ++ "\x7d"

/-- Comma-separated rendering of array elements. -/
def renderArr : List Json → String
  | [] => ""
  | [x] => Json.render x
  | x :: y :: t => Json.render x ++ "," ++ renderArr (y :: t)

/-- Comma-separated rendering of object fields. -/
def renderObj : List (String × Json) → String
  | [] => ""
  | [(k, v)] => "\"" ++ escapeString k ++ "\":" ++ Json.render v
  | (k, v) :: y :: t => "\"" ++ escapeString k ++ "\":" ++ Json.render v ++ "," ++ renderObj (y :: t)

end

/-- Untagged serialization of an `Id`. -/
def Id.render : Id → String
  | .num n => toString n
  | .str s => "\"" ++ escapeString s ++ "\""

/-- Untagged serialization of `Params`. -/
def Params.render : Params → String
  | .arr xs => (Json.arr xs).render
  | .map fs => (Json.obj fs).render

/-- Outbound method call (`MethodCall` in `types/src/v2/request.rs`); the
`jsonrpc` field is the constant version tag `"2.0"`. -/
structure MethodCall where
  method : String
  params : Option Params
  id : Id

/-- `MethodCall::new`, which fixes `jsonrpc` to `Version::V2_0`. -/
def MethodCall.new (method : String) (params : Option Params) (id : Id) : MethodCall :=
  { method := method, params := params, id := id }

/-- serde serialization of a `MethodCall`: fields in declaration order
(`jsonrpc`, `method`, `params`, `id`), with `params` omitted when `None`
per its `skip_serializing_if` attribute. -/
def MethodCall.render (c : MethodCall) : String :=
  "\x7b\"jsonrpc\":\"2.0\",\"method\":\"" ++ escapeString c.method ++ "\""
    ++ (match c.params with
        | none => ""
        | some p => ",\"params\":" ++ p.render)
    ++ ",\"id\":" ++ c.id.render ++ "\x7d"

/-- serde serialization of `Request::Batch` — a JSON array of calls. -/
def renderBatch (calls : List MethodCall) : String :=
  "[" ++ String.intercalate "," (calls.map MethodCall.render) ++ "]"

/-- Messages the engine writes to the socket. -/
inductive OutMessage where
  | text (s : String)
  | pong (p : String)

/-- Outbound half of the connection (`WsSender` in `src/ws_client/task.rs`):
the id counter, plus a model of the socket sink (frames written so far and
whether writes succeed). -/
structure WsSender where
  id : Nat
  sent : List OutMessage
  sockOk : Bool

/-- `WsSender::new`: the id counter starts at 1 on a fresh connection. -/
def WsSender.new : WsSender :=
  { id := 1, sent := [], sockOk := true }

/-- Size of the `u64` value space; the id counter wraps modulo this. -/
def u64size : Nat := 2 ^ 64

/-- `WsSender::send_message` — feed + flush of one frame. -/
def WsSender.send_message (s : WsSender) (msg : OutMessage) : Except WsError WsSender :=
  if s.sockOk then .ok { s with sent := s.sent ++ [msg] } else .error .sendFailed

/-- `WsSender::send_request`: consume one id (with `wrapping_add(1)`),
serialize the call, send it, and return the assigned id.  The id is
consumed even when the socket write fails. -/
def WsSender.send_request (s : WsSender) (method : String) (params : Option Params) :
    (Except WsError Nat) × WsSender :=
  let id := s.id
  let s1 := { s with id := (id + 1) % u64size }
  let call := MethodCall.new method params (.num id)
  match s1.send_message (.text call.render) with
  | .ok s2 => (.ok id, s2)
  | .error e => (.error e, s1)

/-- The id-assignment loop of `WsSender::send_batch_request`: one id per
element, collecting the ids and the serialized calls in order. -/
def assignBatch (s : WsSender) : List (String × Option Params) → (List Nat × List MethodCall × WsSender)
  | [] => ([], [], s)
  | (method, params) :: t =>
      let id := s.id
      let s1 := { s with id := (id + 1) % u64size }
      let rest := assignBatch s1 t
      (id :: rest.1, MethodCall.new method params (.num id) :: rest.2.1, rest.2.2)

/-- `WsSender::send_batch_request`: assign one id per call, serialize the
array, send it, and return all assigned ids. -/
def WsSender.send_batch_request (s : WsSender) (batch : List (String × Option Params)) :
    (Except WsError (List Nat)) × WsSender :=
  let r := assignBatch s batch
  match r.2.2.send_message (.text (renderBatch r.2.1)) with
  | .ok s2 => (.ok r.1, s2)
  | .error e => (.error e, r.2.2)

/-- `WsSender::start_subscription` — delegates to `send_request`. -/
def WsSender.start_subscription (s : WsSender) (subscribe_method : String)
    (params : Option Params) : (Except WsError Nat) × WsSender :=
  s.send_request subscribe_method params

/-- `WsSender::stop_subscription`: a method call whose single positional
parameter is the subscription id. -/
def WsSender.stop_subscription (s : WsSender) (unsubscribe_method : String)
    (subscription_id : Id) : (Except WsError Nat) × WsSender :=
  let v := match subscription_id with
    | .num n => Json.num (Int.ofNat n)
    | .str t => Json.str t
  s.send_request unsubscribe_method (some (.arr [v]))

/-- Payload delivered into a caller's one-shot reply channel. -/
inductive ReplyPayload where
  | output (v : Response)
  | outputs (vs : List Response)
  | subscription (sid : Id) (receiver_capacity : Nat)
  | boolean (b : Bool)

/-- Value delivered into a one-shot: the `Result` the caller unwraps. -/
inductive ReplyValue where
  | ok (p : ReplyPayload)
  | err (e : WsClientError)

/-- A completed one-shot send: which token received which value. -/
abbrev Reply := Nat × ReplyValue

/-- Result of a handler that returns `Result<_, WsClientError>` in Rust and
may panic. -/
inductive RunResult (α : Type) where
  | ok (a : α)
  | err (e : WsClientError)
  | panicked (msg : String)

/-- `response_id_of` from `src/ws_client/task.rs`: a missing id is
`InvalidRequestId`; a present non-numeric id hits
`.expect("Response ID must be number")`. -/
def response_id_of (output : Response) : RunResult Nat :=
  match output.id with
  | none => .err .invalidRequestId
  | some i =>
      match i.as_number with
      | some n => .ok n
      | none => .panicked "Response ID must be number"

/-- `handle_single_output` from `src/ws_client/task.rs`: dispatch a single
inbound response by the status of its id. -/
def handle_single_output (output : Response) (m : TaskManager) (alive : Nat → Bool) :
    RunResult (TaskManager × List Reply) :=
  match response_id_of output with
  | .panicked s => .panicked s
  | .err e => .err e
  | .ok response_id =>
    match m.request_status response_id with
    | .pendingMethodCall =>
        match m.complete_pending_method_call response_id with
        | none => .err .invalidRequestId
        | some (send_back, m1) =>
            if alive send_back then .ok (m1, [(send_back, .ok (.output output))])
            else .panicked "Send single response back"
    | .pendingSubscription =>
        match m.complete_pending_subscription response_id with
        | none => .err .invalidRequestId
        | some ((send_back, unsubscribe_method), m1) =>
          match output with
          | .success success =>
            match parseJsonAsId success.result with
            | .error _ =>
                if alive send_back then .ok (m1, [(send_back, .err .json)])
                else .panicked "Send response error back"
            | .ok subscription_id =>
              let sink := Sink.new m1.max_capacity_per_subscription
              match m1.insert_active_subscription response_id subscription_id sink unsubscribe_method with
              | .ok m2 =>
                  if alive send_back then
                    .ok (m2, [(send_back, .ok (.subscription subscription_id m1.max_capacity_per_subscription))])
                  else .panicked "Send subscription stream back"
              | .error _ =>
                  if alive send_back then .ok (m1, [(send_back, .err .invalidSubscriptionId)])
                  else .panicked "Send subscription error back"
          | .failure _ =>
              if alive send_back then .ok (m1, [(send_back, .err .invalidSubscriptionId)])
              else .panicked "Send response error back"
    | .activeSubscription => .err .invalidRequestId
    | .pendingBatchMethodCall => .err .invalidRequestId
    | .invalid => .err .invalidRequestId

/-- The min/max fold inside `response_id_range_of`. -/
def rangeFold : List Response → Nat → Nat → RunResult (Nat × Nat)
  | [], mn, mx => .ok (mn, mx)
  | o :: t, mn, mx =>
      match o.id with
      | none => .err .invalidRequestId
      | some i =>
          match i.as_number with
          | none => .panicked "Response ID must be number"
          | some id => rangeFold t (min id mn) (max id mx)

/-- `response_id_range_of` from `src/ws_client/task.rs`: asserts the batch
is non-empty, then folds min and max over the (numeric) response ids. -/
def response_id_range_of (outputs : List Response) : RunResult (Nat × Nat) :=
  match outputs with
  | [] => .panicked "assertion failed: !outputs.is_empty()"
  | _ => rangeFold outputs (u64size - 1) 0

/-- `handle_batch_output` from `src/ws_client/task.rs`: correlate an
inbound batch response by the minimum id over its outputs. -/
def handle_batch_output (outputs : List Response) (m : TaskManager) (alive : Nat → Bool) :
    RunResult (TaskManager × List Reply) :=
  match response_id_range_of outputs with
  | .panicked s => .panicked s
  | .err e => .err e
  | .ok (min_response_id, _max_response_id) =>
    match m.request_status min_response_id with
    | .pendingBatchMethodCall =>
        match m.complete_pending_batch_method_call min_response_id with
        | none => .err .invalidRequestId
        | some (send_back, m1) =>
            if alive send_back then .ok (m1, [(send_back, .ok (.outputs outputs))])
            else .panicked "Send batch response back"
    | .pendingMethodCall => .err .invalidRequestId
    | .pendingSubscription => .err .invalidRequestId
    | .activeSubscription => .err .invalidRequestId
    | .invalid => .err .invalidRequestId

/-- `handle_subscription_notification_message` from `src/ws_client/task.rs`:
route a server-push notification through the subscription index; on
`try_send` failure drop the whole subscription. -/
def handle_subscription_notification_message (notification : SubNotif) (m : TaskManager) :
    PResult TaskManager :=
  let subscription_id := notification.params.subscription
  match m.get_request_id_by subscription_id with
  | none => .ok m
  | some request_id =>
    match m.as_active_subscription request_id with
    | none => .ok m
    | some sink =>
      match sink.try_send notification with
      | .ok sink1 => .ok (m.set_active_sink request_id sink1)
      | .error _ =>
        match m.remove_active_subscription request_id subscription_id with
        | .panicked s => .panicked s
        | .ok (some _, m1) => .ok m1
        | .ok (none, _) => .panicked "kind is ActiveSubscription; qed"

/-- `handle_response_message` from `src/ws_client/task.rs`. -/
def handle_response_message (response : ResponseObj) (m : TaskManager) (alive : Nat → Bool) :
    RunResult (TaskManager × List Reply) :=
  match response with
  | .single output => handle_single_output output m alive
  | .batch outputs => handle_batch_output outputs m alive

/-- Decode alternatives of an inbound text frame, in the order the source
attempts them (`Response`, then `SubscriptionNotification`, else ignored). -/
inductive InboundText where
  | response (r : ResponseObj)
  | notification (n : SubNotif)
  | unknown (raw : String)

/-- Inbound WebSocket messages (`tungstenite::Message`). -/
inductive InMessage where
  | text (t : InboundText)
  | binary
  | ping (p : String)
  | pong (p : String)
  | close

/-- `handle_from_back_message` from `src/ws_client/task.rs`: text frames
are dispatched by decode alternative; `Binary` and `Pong` are ignored,
`Ping` is answered with `Pong`, `Close` is a `ConnectionClosed` error. -/
def handle_from_back_message (msg : InMessage) (m : TaskManager) (s : WsSender)
    (alive : Nat → Bool) : RunResult (TaskManager × WsSender × List Reply) :=
  match msg with
  | .text (.response r) =>
      match handle_response_message r m alive with
      | .ok (m1, rs) => .ok (m1, s, rs)
      | .err e => .err e
      | .panicked p => .panicked p
  | .text (.notification n) =>
      match handle_subscription_notification_message n m with
      | .ok m1 => .ok (m1, s, [])
      | .panicked p => .panicked p
  | .text (.unknown _) => .ok (m, s, [])
  | .binary => .ok (m, s, [])
  | .ping p =>
      match s.send_message (.pong p) with
      | .ok s1 => .ok (m, s1, [])
      | .error e => .err (.webSocket e)
  | .pong _ => .ok (m, s, [])
  | .close => .err (.webSocket .connectionClosed)

/-- `Iterator::min` over assigned ids (used by the batch branch before
`.expect("must have one")`). -/
def listMin : List Nat → Option Nat
  | [] => none
  | x :: t =>
      match listMin t with
      | none => some x
      | some y => some (min x y)

/-- Frontend commands (`ToBackTaskMessage` in `src/ws_client/mod.rs`);
one-shot reply channels are abstract tokens. -/
inductive ToBackTaskMessage where
  | request (method : String) (params : Option Params) (send_back : Nat)
  | batchRequest (batch : List (String × Option Params)) (send_back : Nat)
  | subscribe (subscribe_method : String) (unsubscribe_method : String)
      (params : Option Params) (send_back : Nat)
  | subscriptionClosed (subscription_id : Id)

/-- `handle_from_front_message` from `src/ws_client/task.rs`: send the
request, then record the pending entry; socket-send failures and duplicate
ids are failed into the caller's one-shot via `.expect(..)`. -/
def handle_from_front_message (msg : ToBackTaskMessage) (m : TaskManager) (s : WsSender)
    (alive : Nat → Bool) : PResult (TaskManager × WsSender × List Reply) :=
  match msg with
  | .request method params send_back =>
      match s.send_request method params with
      | (.ok req_id, s1) =>
          match m.insert_pending_method_call req_id send_back with
          | .ok m1 => .ok (m1, s1, [])
          | .error sb =>
              if alive sb then .ok (m, s1, [(sb, .err .duplicateRequestId)])
              else .panicked "Send request error back"
      | (.error e, s1) =>
          if alive send_back then .ok (m, s1, [(send_back, .err (.webSocket e))])
          else .panicked "Send request error back"
  | .batchRequest batch send_back =>
      match s.send_batch_request batch with
      | (.ok req_ids, s1) =>
          match listMin req_ids with
          | none => .panicked "must have one"
          | some min_request_id =>
            match m.insert_pending_batch_method_call min_request_id send_back with
            | .ok m1 => .ok (m1, s1, [])
            | .error sb =>
                if alive sb then .ok (m, s1, [(sb, .err .duplicateRequestId)])
                else .panicked "Send batch request error back"
      | (.error e, s1) =>
          if alive send_back then .ok (m, s1, [(send_back, .err (.webSocket e))])
          else .panicked "Send batch request error back"
  | .subscribe subscribe_method unsubscribe_method params send_back =>
      match s.start_subscription subscribe_method params with
      | (.ok req_id, s1) =>
          match m.insert_pending_subscription req_id send_back unsubscribe_method with
          | .ok m1 => .ok (m1, s1, [])
          | .error sb =>
              if alive sb then .ok (m, s1, [(sb, .err .duplicateRequestId)])
              else .panicked "Send subscription request error back"
      | (.error e, s1) =>
          if alive send_back then .ok (m, s1, [(send_back, .err (.webSocket e))])
          else .panicked "Send subscription request error back"
  | .subscriptionClosed subscription_id =>
      match m.get_request_id_by subscription_id with
      | none => .ok (m, s, [])
      | some request_id =>
        match m.remove_active_subscription request_id subscription_id with
        | .panicked p => .panicked p
        | .ok (none, m1) => .ok (m1, s, [])
        | .ok (some (_sink, unsubscribe_method), m1) =>
            let r := s.stop_subscription unsubscribe_method subscription_id
            .ok (m1, r.2, [])

/-- One select event of the `into_task` loop. -/
inductive LoopEvent where
  | fromFront (msg : ToBackTaskMessage)
  | frontClosed
  | fromBack (msg : InMessage)
  | backErr
  | backClosed

/-- What the loop iteration decides: keep looping, or break out (with the
handler error that caused the break, when there was one). -/
inductive LoopControl where
  | keepGoing
  | terminate (e : Option WsClientError)

/-- One iteration of the `into_task` select loop from
`src/ws_client/task.rs`: frontend commands are handled and the loop
continues; a closed frontend channel, a socket error, a closed socket
stream, or an `Err` from `handle_from_back_message` breaks the loop. -/
def into_task_step (ev : LoopEvent) (m : TaskManager) (s : WsSender) (alive : Nat → Bool) :
    PResult (TaskManager × WsSender × List Reply × LoopControl) :=
  match ev with
  | .fromFront msg =>
      match handle_from_front_message msg m s alive with
      | .ok (m1, s1, rs) => .ok (m1, s1, rs, .keepGoing)
      | .panicked p => .panicked p
  | .frontClosed => .ok (m, s, [], .terminate none)
  | .fromBack msg =>
      match handle_from_back_message msg m s alive with
      | .ok (m1, s1, rs) => .ok (m1, s1, rs, .keepGoing)
      | .err e => .ok (m, s, [], .terminate (some e))
      | .panicked p => .panicked p
  | .backErr => .ok (m, s, [], .terminate none)
  | .backClosed => .ok (m, s, [], .terminate none)

/-- `RequestKind` is an `ActiveSubscription`. -/
def RequestKind.isActive : RequestKind → Bool
  | .activeSubscription _ _ => true
  | _ => false

/-- The entry at `rid` exists and is an `ActiveSubscription`. -/
def isActiveAt (requests : List (Nat × RequestKind)) (rid : Nat) : Bool :=
  match alookup rid requests with
  | some k => k.isActive
  | none => false

/-- The task-manager operations named by the spec's invariant section, as
an abstract operation alphabet. -/
inductive MOp where
  | insPendingCall (request_id : Nat) (send_back : Nat)
  | insPendingBatch (min_request_id : Nat) (send_back : Nat)
  | insPendingSub (request_id : Nat) (send_back : Nat) (unsubscribe_method : String)
  | insActiveSub (request_id : Nat) (subscription_id : Id) (sink : Sink) (unsubscribe_method : String)
  | compPendingCall (request_id : Nat)
  | compPendingBatch (min_request_id : Nat)
  | compPendingSub (request_id : Nat)
  | removeActiveSub (request_id : Nat) (subscription_id : Id)

/-- Apply one manager operation; a failed insert leaves the state
unchanged (the one-shot is handed back), a panicking removal has no
successor state. -/
def applyOp : MOp → TaskManager → Option TaskManager
  | .insPendingCall rid sb, m =>
      some (match m.insert_pending_method_call rid sb with | .ok m1 => m1 | .error _ => m)
  | .insPendingBatch rid sb, m =>
      some (match m.insert_pending_batch_method_call rid sb with | .ok m1 => m1 | .error _ => m)
  | .insPendingSub rid sb u, m =>
      some (match m.insert_pending_subscription rid sb u with | .ok m1 => m1 | .error _ => m)
  | .insActiveSub rid sid sink u, m =>
      some (match m.insert_active_subscription rid sid sink u with | .ok m1 => m1 | .error _ => m)
  | .compPendingCall rid, m =>
      some (match m.complete_pending_method_call rid with | some (_, m1) => m1 | none => m)
  | .compPendingBatch rid, m =>
      some (match m.complete_pending_batch_method_call rid with | some (_, m1) => m1 | none => m)
  | .compPendingSub rid, m =>
      some (match m.complete_pending_subscription rid with | some (_, m1) => m1 | none => m)
  | .removeActiveSub rid sid, m =>
      match m.remove_active_subscription rid sid with
      | .panicked _ => none
      | .ok (_, m1) => some m1

/-- Apply a sequence of manager operations from left to right. -/
def applyOps : List MOp → TaskManager → Option TaskManager
  | [], m => some m
  | op :: t, m =>
      match applyOp op m with
      | none => none
      | some m1 => applyOps t m1

/-- Call-site guard under which the connection task invokes
`remove_active_subscription`: the request id is the one the subscription
index returns for the subscription id (both call sites in
`src/ws_client/task.rs` first perform `get_request_id_by`). -/
def opGuard : MOp → TaskManager → Prop
  | .removeActiveSub rid sid, m =>
      alookup sid m.subscriptions = none ∨ alookup sid m.subscriptions = some rid
  | _, _ => True

/-- Manager states reachable by guarded operation sequences. -/
inductive GReach : TaskManager → Prop where
  | init (cap : Nat) : GReach (TaskManager.new cap)
  | step (m : TaskManager) (op : MOp) (m1 : TaskManager) :
      GReach m → opGuard op m → applyOp op m = some m1 → GReach m1

/-- The spec's task-manager invariant: every `ActiveSubscription` entry
has exactly one index entry pointing to it (existence plus
value-injectivity plus key uniqueness), no index entry points to a
non-`ActiveSubscription` entry, and request ids and subscription ids are
unique. -/
def Invariant (m : TaskManager) : Prop :=
  (∀ p ∈ m.requests, p.2.isActive = true → ∃ q ∈ m.subscriptions, q.2 = p.1)
  ∧ (∀ q ∈ m.subscriptions, isActiveAt m.requests q.2 = true)
  ∧ (∀ q ∈ m.subscriptions, ∀ r ∈ m.subscriptions, q.2 = r.2 → q.1 = r.1)
  ∧ (keysOf m.requests).Nodup
  ∧ (keysOf m.subscriptions).Nodup

instance (m : TaskManager) : Decidable (Invariant m) := by
  unfold Invariant
  infer_instance

/-- A concrete sink used by concrete scenarios. -/
def sinkA : Sink := Sink.new 4

/-- Unguarded operation sequence: two active subscriptions, then a removal
that pairs the first request id with the second subscription id. -/
def c1Ops : List MOp :=
  [ .insActiveSub 1 (.str "a") sinkA "unsub_a",
    .insActiveSub 2 (.str "b") sinkA "unsub_b",
    .removeActiveSub 1 (.str "b") ]

/-- The state the sequence `c1Ops` produces. -/
def c1Bad : TaskManager :=
  { requests := [(2, .activeSubscription sinkA "unsub_b")],
    subscriptions := [(Id.str "a", 1)],
    max_capacity_per_subscription := 4 }

/-- The behavior C9 attributes to `remove_active_subscription` at one
input: removal of both entries exactly when the entry is an
`ActiveSubscription` and the index maps the subscription id to this
request id, and a state-preserving, panic-free no-op otherwise. -/
def removeMatchesSpecAt (m : TaskManager) (rid : Nat) (sid : Id) : Prop :=
  (isActiveAt m.requests rid = true ∧ alookup sid m.subscriptions = some rid →
    ∃ sink u m1, m.remove_active_subscription rid sid = .ok (some (sink, u), m1)
      ∧ alookup rid m1.requests = none ∧ alookup sid m1.subscriptions = none)
  ∧ (¬(isActiveAt m.requests rid = true ∧ alookup sid m.subscriptions = some rid) →
    m.remove_active_subscription rid sid = .ok (none, m))

/-- Concrete state whose requests table holds a `PendingMethodCall` at a
request id that the subscription index also points to. -/
def c9Bad : TaskManager :=
  { requests := [(1, .pendingMethodCall 7)],
    subscriptions := [(Id.str "s", 1)],
    max_capacity_per_subscription := 4 }

/-- Pending-entry variants of the client-crate task manager, per
`client/src/ws_client/task.rs` usage and §3 of the spec (the client
crate's `manager.rs` is not among the sources). -/
inductive CRequestKind where
  | pendingMethodCall (send_back : Nat)
  | pendingBatchMethodCall (send_back : Nat)
  | pendingSubscription (send_back : Nat)
  | pendingUnsubscribe (subscription_id : Id) (send_back : Nat)
  | activeSubscription (sink : Sink)

/-- Request status of the client-crate task manager, including
`PendingUnsubscribe`. -/
inductive CRequestStatus where
  | pendingMethodCall
  | pendingBatchMethodCall
  | pendingSubscription
  | pendingUnsubscribe
  | activeSubscription
  | invalid
deriving DecidableEq, Repr

/-- The client-crate task manager state. -/
structure CTaskManager where
  requests : List (Nat × CRequestKind)
  subscriptions : List (Id × Nat)
  max_capacity_per_subscription : Nat

/-- Modelled from the spec: `request_status(id)` of the client-crate task
manager (its `manager.rs` is not among the sources) — the variant of the
entry at `id`, or `Invalid`. -/
def CTaskManager.request_status (m : CTaskManager) (request_id : Nat) : CRequestStatus :=
  match alookup request_id m.requests with
  | none => .invalid
  | some (.pendingMethodCall _) => .pendingMethodCall
  | some (.pendingBatchMethodCall _) => .pendingBatchMethodCall
  | some (.pendingSubscription _) => .pendingSubscription
  | some (.pendingUnsubscribe _ _) => .pendingUnsubscribe
  | some (.activeSubscription _) => .activeSubscription

/-- Modelled from the spec: `complete_pending_call(id)` of the
client-crate task manager — remove and return the entry when it is a
`PendingCall`, `None` otherwise. -/
def CTaskManager.complete_pending_method_call (m : CTaskManager) (request_id : Nat) :
    Option (Nat × CTaskManager) :=
  match alookup request_id m.requests with
  | some (.pendingMethodCall send_back) =>
      some (send_back, { m with requests := eraseKey request_id m.requests })
  | _ => none

/-- Modelled from the spec: `complete_pending_subscribe(id)` of the
client-crate task manager. -/
def CTaskManager.complete_pending_subscription (m : CTaskManager) (request_id : Nat) :
    Option (Nat × CTaskManager) :=
  match alookup request_id m.requests with
  | some (.pendingSubscription send_back) =>
      some (send_back, { m with requests := eraseKey request_id m.requests })
  | _ => none

/-- Modelled from the spec: `complete_pending_batch(min_id)` of the
client-crate task manager. -/
def CTaskManager.complete_pending_batch_method_call (m : CTaskManager) (min_request_id : Nat) :
    Option (Nat × CTaskManager) :=
  match alookup min_request_id m.requests with
  | some (.pendingBatchMethodCall send_back) =>
      some (send_back, { m with requests := eraseKey min_request_id m.requests })
  | _ => none

/-- Modelled from the spec: `complete_pending_unsubscribe(id)` of the
client-crate task manager — remove the `PendingUnsubscribe` entry and
return its subscription id and one-shot. -/
def CTaskManager.complete_pending_unsubscribe (m : CTaskManager) (request_id : Nat) :
    Option ((Id × Nat) × CTaskManager) :=
  match alookup request_id m.requests with
  | some (.pendingUnsubscribe subscription_id send_back) =>
      some ((subscription_id, send_back), { m with requests := eraseKey request_id m.requests })
  | _ => none

/-- Modelled from the spec: `insert_active_subscription(id, sub_id, tx)`
of the client-crate task manager — requires both keys vacant, installs the
entry and the index mapping, returns the sink on collision. -/
def CTaskManager.insert_active_subscription (m : CTaskManager) (request_id : Nat)
    (subscription_id : Id) (send_back : Sink) : Except Sink CTaskManager :=
  match alookup request_id m.requests, alookup subscription_id m.subscriptions with
  | none, none =>
      .ok { m with
              requests := (request_id, .activeSubscription send_back) :: m.requests,
              subscriptions := (subscription_id, request_id) :: m.subscriptions }
  | _, _ => .error send_back

/-- `get_request_id_by` of the client-crate task manager. -/
def CTaskManager.get_request_id_by (m : CTaskManager) (subscription_id : Id) : Option Nat :=
  alookup subscription_id m.subscriptions

/-- Modelled from the spec: `remove_active_subscription(id, sub_id)` of
the client-crate task manager — both entries are removed exactly when the
entry is an `ActiveSubscription` and the index maps `sub_id` to `id`; a
no-op otherwise. -/
def CTaskManager.remove_active_subscription (m : CTaskManager) (request_id : Nat)
    (subscription_id : Id) : Option (Sink × CTaskManager) :=
  match alookup request_id m.requests, alookup subscription_id m.subscriptions with
  | some (.activeSubscription sink), some rid =>
      if rid = request_id then
        some (sink,
          { m with
              requests := eraseKey request_id m.requests,
              subscriptions := eraseKey subscription_id m.subscriptions })
      else none
  | _, _ => none

/-- `handle_single_output` from `client/src/ws_client/task.rs`: like the
in-crate version, plus the `PendingUnsubscribe` branch — parse the result
as a boolean, reply with it, and on `true` drop the referenced
`ActiveSubscription` via the subscription index. -/
def chandle_single_output (response : Response) (m : CTaskManager) (alive : Nat → Bool) :
    RunResult (CTaskManager × List Reply) :=
  match response_id_of response with
  | .panicked s => .panicked s
  | .err e => .err e
  | .ok response_id =>
    match m.request_status response_id with
    | .pendingMethodCall =>
        match m.complete_pending_method_call response_id with
        | none => .err .invalidRequestId
        | some (send_back, m1) =>
            if alive send_back then .ok (m1, [(send_back, .ok (.output response))])
            else .panicked "Send single response back"
    | .pendingSubscription =>
        match m.complete_pending_subscription response_id with
        | none => .err .invalidRequestId
        | some (send_back, m1) =>
          match response with
          | .success success =>
            match parseJsonAsId success.result with
            | .error _ =>
                if alive send_back then .ok (m1, [(send_back, .err .json)])
                else .panicked "Send response error back"
            | .ok subscription_id =>
              let sink := Sink.new m1.max_capacity_per_subscription
              match m1.insert_active_subscription response_id subscription_id sink with
              | .ok m2 =>
                  if alive send_back then
                    .ok (m2, [(send_back, .ok (.subscription subscription_id m1.max_capacity_per_subscription))])
                  else .panicked "Send subscription stream back"
              | .error _ =>
                  if alive send_back then .ok (m1, [(send_back, .err .invalidSubscriptionId)])
                  else .panicked "Send subscription error back"
          | .failure _ =>
              if alive send_back then .ok (m1, [(send_back, .err .invalidSubscriptionId)])
              else .panicked "Send response error back"
    | .pendingUnsubscribe =>
        match m.complete_pending_unsubscribe response_id with
        | none => .err .invalidRequestId
        | some ((subscription_id, send_back), m1) =>
          match response with
          | .success success =>
            match parseJsonAsBool success.result with
            | .error _ =>
                if alive send_back then .ok (m1, [(send_back, .err .json)])
                else .panicked "Send response error back"
            | .ok result =>
              if alive send_back then
                if result then
                  match m1.get_request_id_by subscription_id with
                  | some request_id =>
                      match m1.remove_active_subscription request_id subscription_id with
                      | some (_, m2) => .ok (m2, [(send_back, .ok (.boolean result))])
                      | none => .ok (m1, [(send_back, .ok (.boolean result))])
                  | none => .ok (m1, [(send_back, .ok (.boolean result))])
                else .ok (m1, [(send_back, .ok (.boolean result))])
              else .panicked "Send single response back"
          | .failure _ =>
              if alive send_back then .ok (m1, [(send_back, .err .invalidUnsubscribeResult)])
              else .panicked "Send response error back"
    | .activeSubscription => .err .invalidRequestId
    | .pendingBatchMethodCall => .err .invalidRequestId
    | .invalid => .err .invalidRequestId

/-- Oneshot environment in which every receiver is still alive. -/
def aliveAll : Nat → Bool := fun _ => true

/-- Oneshot environment in which every receiver has been dropped. -/
def aliveNone : Nat → Bool := fun _ => false

/-- Token `sb` is not the one-shot of any pending batch entry of `m`. -/
def NoBatchToken (m : TaskManager) (sb : Nat) : Prop :=
  ∀ rid, alookup rid m.requests ≠ some (.pendingBatchMethodCall sb)

/-- Manager holding one pending method call whose one-shot token is 7. -/
def c2Mgr : TaskManager :=
  { requests := [(1, .pendingMethodCall 7)],
    subscriptions := [],
    max_capacity_per_subscription := 64 }

/-- Late server response to request id 1. -/
def c2Out : Response := .success { result := .str "x", id := .num 1 }

/-- Inbound single response carrying a string id. -/
def c4Out : Response := .success { result := .str "x", id := .str "abc" }

/-- Inbound single response whose id 5 matches no pending entry. -/
def c3Out : Response := .success { result := .str "x", id := .num 5 }

/-- The loop event delivering `c3Out` from the socket. -/
def c3Event : LoopEvent := .fromBack (.text (.response (.single c3Out)))

/-- Two-call batch command with one-shot token 9. -/
def c5Batch : List (String × Option Params) := [("foo", none), ("bar", none)]

/-- Single-output batch response a faulty server could return for a
two-call batch whose minimum id is 1. -/
def c5Outputs : List Response := [.success { result := .str "x", id := .num 1 }]

/-- Wire text of the serialized two-call batch `c5Batch` sent from a fresh
connection. -/
def c5BatchWire : String :=
  "[\x7b\"jsonrpc\":\"2.0\",\"method\":\"foo\",\"id\":1\x7d,\x7b\"jsonrpc\":\"2.0\",\"method\":\"bar\",\"id\":2\x7d]"

/-- Manager state after the two-call batch command was recorded. -/
def c5MgrAfter : TaskManager :=
  { requests := [(1, .pendingBatchMethodCall 9)],
    subscriptions := [],
    max_capacity_per_subscription := 64 }

/-- Sender state after the two-call batch was written. -/
def c5SenderAfter : WsSender :=
  { id := 3, sent := [.text c5BatchWire], sockOk := true }

/-- A subscription channel with zero capacity: `try_send` always fails. -/
def c6SinkFull : Sink :=
  { queue := [], capacity := 0, disconnected := false }

/-- A server-push notification for subscription id `"sub1"`. -/
def c6Notif : SubNotif :=
  { method := "chain_newHead", params := { subscription := .str "sub1", result := .num 7 } }

/-- Manager holding one active subscription `"sub1"` whose channel is full. -/
def c6Mgr : TaskManager :=
  { requests := [(3, .activeSubscription c6SinkFull "unsub")],
    subscriptions := [(Id.str "sub1", 3)],
    max_capacity_per_subscription := 2 }

/-- Client-crate manager holding a pending unsubscribe (request id 5, for
subscription `"x"`) and the referenced active subscription (request id 3). -/
def c7Mgr : CTaskManager :=
  { requests := [(5, .pendingUnsubscribe (.str "x") 11), (3, .activeSubscription (Sink.new 2))],
    subscriptions := [(Id.str "x", 3)],
    max_capacity_per_subscription := 2 }

/-- Expected wire text of scenario S1: `request("foo", None)` on a fresh
connection. -/
def c8WireS1 : String :=
  "\x7b\"jsonrpc\":\"2.0\",\"method\":\"foo\",\"id\":1\x7d"

/-- Expected wire text of scenario S2: `request("bar", Array([]))` on a
fresh connection. -/
def c8WireS2 : String :=
  "\x7b\"jsonrpc\":\"2.0\",\"method\":\"bar\",\"params\":[],\"id\":1\x7d"

-- ======================================================================
-- Association-list and list lemmas
-- ======================================================================

theorem alookup_eq_none_iff {α β : Type} [DecidableEq α] (k : α) (l : List (α × β)) :
    alookup k l = none ↔ ∀ p ∈ l, p.1 ≠ k := by
  induction l with
  | nil => simp [alookup]
  | cons p t ih =>
      obtain ⟨a, b⟩ := p
      by_cases h : a = k
      · simp [alookup, h]
      · simp [alookup, h, ih]

theorem mem_of_alookup_some {α β : Type} [DecidableEq α] {k : α} {v : β} {l : List (α × β)}
    (h : alookup k l = some v) : (k, v) ∈ l := by
  induction l with
  | nil => simp [alookup] at h
  | cons p t ih =>
      obtain ⟨a, b⟩ := p
      by_cases hak : a = k
      · subst hak
        rw [alookup, if_pos rfl] at h
        injection h with hbv
        subst hbv
        exact List.mem_cons_self _ _
      · rw [alookup, if_neg hak] at h
        exact List.mem_cons_of_mem _ (ih h)

theorem alookup_ne_none_of_mem {α β : Type} [DecidableEq α] {p : α × β} {l : List (α × β)}
    (h : p ∈ l) : alookup p.1 l ≠ none := by
  intro hn
  exact (alookup_eq_none_iff p.1 l).mp hn p h rfl

theorem eraseKey_cons {α β : Type} [DecidableEq α] (k a : α) (b : β) (t : List (α × β)) :
    eraseKey k ((a, b) :: t) = if a = k then eraseKey k t else (a, b) :: eraseKey k t := by
  by_cases h : a = k <;> simp [eraseKey, List.filter_cons, h]

theorem mem_eraseKey {α β : Type} [DecidableEq α] {p : α × β} {k : α} {l : List (α × β)} :
    p ∈ eraseKey k l ↔ p ∈ l ∧ p.1 ≠ k := by
  simp [eraseKey, List.mem_filter]

theorem eraseKey_sublist {α β : Type} [DecidableEq α] (k : α) (l : List (α × β)) :
    List.Sublist (eraseKey k l) l :=
  List.filter_sublist l

theorem alookup_eraseKey_self {α β : Type} [DecidableEq α] (k : α) (l : List (α × β)) :
    alookup k (eraseKey k l) = none := by
  rw [alookup_eq_none_iff]
  intro p hp
  exact (mem_eraseKey.mp hp).2

theorem alookup_eraseKey_ne {α β : Type} [DecidableEq α] {j k : α} (h : j ≠ k)
    (l : List (α × β)) : alookup j (eraseKey k l) = alookup j l := by
  induction l with
  | nil => rfl
  | cons p t ih =>
      obtain ⟨a, b⟩ := p
      rw [eraseKey_cons]
      by_cases hak : a = k
      · have haj : ¬ a = j := fun hha => h (hha.symm.trans hak)
        rw [if_pos hak, ih]
        simp [alookup, haj]
      · rw [if_neg hak]
        by_cases haj : a = j
        · simp [alookup, haj]
        · simp [alookup, haj, ih]

theorem mem_keysOf_of_mem {α β : Type} {p : α × β} {l : List (α × β)} (h : p ∈ l) :
    p.1 ∈ keysOf l :=
  List.mem_map_of_mem _ h

theorem nodup_keysOf_eraseKey {α β : Type} [DecidableEq α] {k : α} {l : List (α × β)}
    (h : (keysOf l).Nodup) : (keysOf (eraseKey k l)).Nodup :=
  List.Nodup.sublist (List.Sublist.map _ (eraseKey_sublist k l)) h

theorem alookup_eq_some_of_mem {α β : Type} [DecidableEq α] {l : List (α × β)}
    (hnd : (keysOf l).Nodup) {k : α} {v : β} (hp : (k, v) ∈ l) : alookup k l = some v := by
  induction l with
  | nil => simp at hp
  | cons q t ih =>
      obtain ⟨a, b⟩ := q
      rw [keysOf, List.map_cons, List.nodup_cons] at hnd
      rcases List.mem_cons.mp hp with hh | ht
      · injection hh with h1 h2
        subst h1
        subst h2
        simp [alookup]
      · have hne : ¬ a = k := by
          intro hha
          refine hnd.1 ?_
          rw [hha]
          exact @mem_keysOf_of_mem α β (k, v) t ht
        simp only [alookup, if_neg hne]
        exact ih hnd.2 ht

theorem value_unique_of_nodup {α β : Type} [DecidableEq α] {l : List (α × β)}
    (hnd : (keysOf l).Nodup) {k : α} {v v' : β} (h1 : (k, v) ∈ l) (h2 : (k, v') ∈ l) :
    v = v' := by
  have e1 := alookup_eq_some_of_mem hnd h1
  have e2 := alookup_eq_some_of_mem hnd h2
  rw [e1] at e2
  injection e2 with h

theorem listMin_isSome {l : List Nat} (h : l ≠ []) : ∃ x, listMin l = some x := by
  cases l with
  | nil => exact absurd rfl h
  | cons a t =>
      cases ht : listMin t with
      | none => exact ⟨a, by rw [listMin, ht]⟩
      | some y => exact ⟨min a y, by rw [listMin, ht]⟩

theorem assignBatch_ids_length (s : WsSender) (batch : List (String × Option Params)) :
    (assignBatch s batch).1.length = batch.length := by
  induction batch generalizing s with
  | nil => rfl
  | cons p t ih =>
      obtain ⟨method, params⟩ := p
      simp [assignBatch, ih]

theorem send_batch_request_ok {s : WsSender} {batch : List (String × Option Params)}
    {ids : List Nat} {s1 : WsSender} (h : s.send_batch_request batch = (.ok ids, s1)) :
    ids = (assignBatch s batch).1 := by
  simp only [WsSender.send_batch_request] at h
  cases hm : ((assignBatch s batch).2.2).send_message (.text (renderBatch (assignBatch s batch).2.1)) with
  | ok s2 =>
      rw [hm] at h
      injection h with h1 h2
      injection h1 with h3
      exact h3.symm
  | error e =>
      rw [hm] at h
      injection h with h1 h2
      exact Except.noConfusion h1

theorem rangeFold_panic_msg {l : List Response} {mn mx : Nat} {msg : String}
    (h : rangeFold l mn mx = .panicked msg) : msg = "Response ID must be number" := by
  induction l generalizing mn mx with
  | nil => simp [rangeFold] at h
  | cons o t ih =>
      simp only [rangeFold] at h
      split at h
      · exact RunResult.noConfusion h
      · split at h
        · injection h with h1
          exact h1.symm
        · exact ih h

theorem alookup_cons_self {α β : Type} [DecidableEq α] (a : α) (b : β) (t : List (α × β)) :
    alookup a ((a, b) :: t) = some b := by
  rw [alookup, if_pos rfl]

theorem alookup_cons_ne {α β : Type} [DecidableEq α] {a k : α} (h : ¬ a = k) (b : β)
    (t : List (α × β)) : alookup k ((a, b) :: t) = alookup k t := by
  rw [alookup, if_neg h]

theorem mem_keysOf_iff {α β : Type} {a : α} {l : List (α × β)} :
    a ∈ keysOf l ↔ ∃ p ∈ l, p.1 = a := by
  simp [keysOf, List.mem_map]

theorem not_mem_keysOf_of_alookup_none {α β : Type} [DecidableEq α] {k : α}
    {l : List (α × β)} (h : alookup k l = none) : k ∉ keysOf l := by
  rw [mem_keysOf_iff]
  rintro ⟨p, hp, hpk⟩
  exact (alookup_eq_none_iff k l).mp h p hp hpk

theorem invariant_insert_nonactive {m : TaskManager} {rid : Nat} {kind : RequestKind}
    (hinv : Invariant m) (hvac : alookup rid m.requests = none)
    (hk : kind.isActive = false) :
    Invariant { m with requests := (rid, kind) :: m.requests } := by
  obtain ⟨h1, h2, h3, h4, h5⟩ := hinv
  refine ⟨?_, ?_, h3, ?_, h5⟩
  · intro p hp hact
    rcases List.mem_cons.mp hp with rfl | ht
    · exact absurd hact (by simp [hk])
    · exact h1 p ht hact
  · intro q hq
    have hold := h2 q hq
    have hne : q.2 ≠ rid := by
      intro hh
      unfold isActiveAt at hold
      rw [hh, hvac] at hold
      exact Bool.noConfusion hold
    unfold isActiveAt at hold ⊢
    rw [alookup_cons_ne (fun hh => hne hh.symm)]
    exact hold
  · rw [keysOf, List.map_cons]
    exact List.nodup_cons.mpr ⟨not_mem_keysOf_of_alookup_none hvac, h4⟩

theorem invariant_erase_nonactive {m : TaskManager} {rid : Nat} {kind : RequestKind}
    (hinv : Invariant m) (hsome : alookup rid m.requests = some kind)
    (hk : kind.isActive = false) :
    Invariant { m with requests := eraseKey rid m.requests } := by
  obtain ⟨h1, h2, h3, h4, h5⟩ := hinv
  refine ⟨?_, ?_, h3, nodup_keysOf_eraseKey h4, h5⟩
  · intro p hp hact
    exact h1 p (mem_eraseKey.mp hp).1 hact
  · intro q hq
    have hold := h2 q hq
    have hne : q.2 ≠ rid := by
      intro hh
      unfold isActiveAt at hold
      rw [hh, hsome] at hold
      have h6 : kind.isActive = true := hold
      rw [hk] at h6
      exact Bool.noConfusion h6
    unfold isActiveAt at hold ⊢
    rw [alookup_eraseKey_ne hne]
    exact hold

theorem invariant_insert_active {m : TaskManager} {rid : Nat} {sid : Id} {sink : Sink}
    {u : String} (hinv : Invariant m) (hvr : alookup rid m.requests = none)
    (hvs : alookup sid m.subscriptions = none) :
    Invariant { m with requests := (rid, .activeSubscription sink u) :: m.requests,
                       subscriptions := (sid, rid) :: m.subscriptions } := by
  obtain ⟨h1, h2, h3, h4, h5⟩ := hinv
  have hnotarget : ∀ q ∈ m.subscriptions, q.2 ≠ rid := by
    intro q hq hh
    have hold := h2 q hq
    unfold isActiveAt at hold
    rw [hh, hvr] at hold
    exact Bool.noConfusion hold
  refine ⟨?_, ?_, ?_, ?_, ?_⟩
  · intro p hp hact
    rcases List.mem_cons.mp hp with rfl | ht
    · exact ⟨(sid, rid), List.mem_cons_self _ _, rfl⟩
    · obtain ⟨q, hq, hq2⟩ := h1 p ht hact
      exact ⟨q, List.mem_cons_of_mem _ hq, hq2⟩
  · intro q hq
    rcases List.mem_cons.mp hq with rfl | ht
    · simp [isActiveAt, alookup_cons_self, RequestKind.isActive]
    · have hold := h2 q ht
      have hne : q.2 ≠ rid := hnotarget q ht
      unfold isActiveAt at hold ⊢
      rw [alookup_cons_ne (fun hh => hne hh.symm)]
      exact hold
  · intro q hq r hr hqr
    rcases List.mem_cons.mp hq with hq1 | hqt
    · rcases List.mem_cons.mp hr with hr1 | hrt
      · rw [hq1, hr1]
      · exfalso
        apply hnotarget r hrt
        rw [← hqr, hq1]
    · rcases List.mem_cons.mp hr with hr1 | hrt
      · exfalso
        apply hnotarget q hqt
        rw [hqr, hr1]
      · exact h3 q hqt r hrt hqr
  · rw [keysOf, List.map_cons]
    exact List.nodup_cons.mpr ⟨not_mem_keysOf_of_alookup_none hvr, h4⟩
  · rw [keysOf, List.map_cons]
    exact List.nodup_cons.mpr ⟨not_mem_keysOf_of_alookup_none hvs, h5⟩

theorem invariant_remove_guarded {m : TaskManager} {rid : Nat} {sid : Id}
    (hinv : Invariant m) (hs : alookup sid m.subscriptions = some rid) :
    Invariant { m with requests := eraseKey rid m.requests,
                       subscriptions := eraseKey sid m.subscriptions } := by
  obtain ⟨h1, h2, h3, h4, h5⟩ := hinv
  have hsid_mem : (sid, rid) ∈ m.subscriptions := mem_of_alookup_some hs
  refine ⟨?_, ?_, ?_, nodup_keysOf_eraseKey h4, nodup_keysOf_eraseKey h5⟩
  · intro p hp hact
    obtain ⟨hpm, hpne⟩ := mem_eraseKey.mp hp
    obtain ⟨q, hq, hq2⟩ := h1 p hpm hact
    have hqk : q.1 ≠ sid := by
      intro hh
      have hq2' : (q.1, q.2) ∈ m.subscriptions := by simpa using hq
      have hl : alookup q.1 m.subscriptions = some q.2 := alookup_eq_some_of_mem h5 hq2'
      rw [hh, hs] at hl
      injection hl with hl2
      exact hpne ((hl2.trans hq2).symm)
    exact ⟨q, mem_eraseKey.mpr ⟨hq, hqk⟩, hq2⟩
  · intro q hq
    obtain ⟨hqm, hqne⟩ := mem_eraseKey.mp hq
    have hold := h2 q hqm
    have hne2 : q.2 ≠ rid := by
      intro hh
      exact hqne (h3 q hqm (sid, rid) hsid_mem (by rw [hh]))
    unfold isActiveAt at hold ⊢
    rw [alookup_eraseKey_ne hne2]
    exact hold
  · intro q hq r hr hqr
    exact h3 q (mem_eraseKey.mp hq).1 r (mem_eraseKey.mp hr).1 hqr

theorem complete_batch_inversion {m : TaskManager} {k sb2 : Nat} {m1 : TaskManager}
    (h : m.complete_pending_batch_method_call k = some (sb2, m1)) :
    alookup k m.requests = some (.pendingBatchMethodCall sb2)
      ∧ m1 = { m with requests := eraseKey k m.requests } := by
  simp only [TaskManager.complete_pending_batch_method_call] at h
  split at h
  · rename_i send_back heq
    injection h with h1
    injection h1 with h2 h3
    subst h2
    exact ⟨heq, h3.symm⟩
  · exact Option.noConfusion h

theorem batch_completion_inversion {outputs : List Response} {m : TaskManager}
    {alive : Nat → Bool} {m2 : TaskManager} {sb : Nat} {v : ReplyValue}
    (h : handle_batch_output outputs m alive = .ok (m2, [(sb, v)])) :
    ∃ k mx, response_id_range_of outputs = .ok (k, mx)
      ∧ alookup k m.requests = some (.pendingBatchMethodCall sb)
      ∧ v = .ok (.outputs outputs)
      ∧ m2 = { m with requests := eraseKey k m.requests } := by
  simp only [handle_batch_output] at h
  split at h
  · exact RunResult.noConfusion h
  · exact RunResult.noConfusion h
  · rename_i kmin kmax heq
    split at h
    · split at h
      · exact RunResult.noConfusion h
      · rename_i pair hcomp
        obtain ⟨send_back, m1⟩ := pair
        split at h
        · rename_i halive
          injection h with h1
          injection h1 with hm hr
          injection hr with hr1 hr2
          injection hr1 with hsb hv
          subst hsb
          obtain ⟨hlook, hm1⟩ := complete_batch_inversion hcomp
          exact ⟨kmin, kmax, heq, hlook, hv.symm, hm ▸ hm1⟩
        · exact RunResult.noConfusion h
    · exact RunResult.noConfusion h
    · exact RunResult.noConfusion h
    · exact RunResult.noConfusion h
    · exact RunResult.noConfusion h

theorem assignBatch_spec (s : WsSender) (batch : List (String × Option Params))
    (h : s.id < u64size) :
    (assignBatch s batch).1 = (List.range batch.length).map (fun i => (s.id + i) % u64size)
    ∧ (assignBatch s batch).2.2.id = (s.id + batch.length) % u64size := by
  have hpos : 0 < u64size := by decide
  induction batch generalizing s with
  | nil =>
      refine ⟨rfl, ?_⟩
      simp [assignBatch, Nat.mod_eq_of_lt h]
  | cons p t ih =>
      obtain ⟨method, params⟩ := p
      have ihs := ih { s with id := (s.id + 1) % u64size } (Nat.mod_lt _ hpos)
      constructor
      · simp only [assignBatch, List.length_cons, List.range_succ_eq_map, List.map_cons,
                   List.map_map]
        refine congrArg₂ List.cons ?_ ?_
        · exact (by rw [Nat.add_zero, Nat.mod_eq_of_lt h] : (s.id + 0) % u64size = s.id).symm
        · rw [ihs.1]
          apply List.map_congr_left
          intro a _
          show ((s.id + 1) % u64size + a) % u64size = (s.id + (a + 1)) % u64size
          rw [Nat.mod_add_mod, Nat.add_assoc, Nat.add_comm 1 a]
      · simp only [assignBatch, List.length_cons]
        rw [ihs.2]
        show ((s.id + 1) % u64size + t.length) % u64size = (s.id + (t.length + 1)) % u64size
        rw [Nat.mod_add_mod]
        congr 1
        omega

-- ======================================================================
-- Claim theorems
-- ======================================================================

/-- Claim C1 (counterexample): the invariant is not preserved by arbitrary
sequences of task-manager operations — after inserting two active
subscriptions and calling `remove_active_subscription` with the first
request id paired with the second subscription id, the code removes both
(it never checks that the index maps the subscription id to the request
id), leaving an `ActiveSubscription` with no index entry and an index
entry pointing at a removed request. -/
theorem c1_counterexample :
    applyOps c1Ops (TaskManager.new 4) = some c1Bad ∧ ¬ Invariant c1Bad :=
  ⟨rfl, by decide⟩

/-- Claim C2 (code bug): completing a pending method call whose one-shot
receiver has been dropped panics via `.expect("Send single response
back")` instead of silently completing into the dropped one-shot. -/
theorem c2_dropped_receiver_panics :
    handle_single_output c2Out c2Mgr aliveNone = .panicked "Send single response back" :=
  rfl

/-- Claim C3 (counterexample): an inbound single response whose id matches
no pending entry does not keep the event loop running — the handler error
`InvalidRequestId` breaks the `into_task` loop and terminates the
connection task. -/
theorem c3_counterexample :
    into_task_step c3Event (TaskManager.new 8) WsSender.new aliveAll
      = .ok (TaskManager.new 8, WsSender.new, [], .terminate (some .invalidRequestId)) :=
  rfl

/-- Claim C3 (amended): an inbound response whose id does not match a
pending entry of the expected variant is classified `InvalidRequestId`
and terminates the connection task — for a single output that is
`request_status` yielding `ActiveSubscription`, `PendingBatchMethodCall`
or `Invalid`, and for a batch response a non-`PendingBatchMethodCall`
status at its minimum id — while undecodable frames and notifications for
unknown subscription ids are localized: the loop keeps going with the
state unchanged. -/
theorem c3_error_localization :
    (∀ (m : TaskManager) (s : WsSender) (alive : Nat → Bool) (out : Response) (n : Nat),
        response_id_of out = .ok n →
        (m.request_status n = .activeSubscription
          ∨ m.request_status n = .pendingBatchMethodCall
          ∨ m.request_status n = .invalid) →
        into_task_step (.fromBack (.text (.response (.single out)))) m s alive
          = .ok (m, s, [], .terminate (some .invalidRequestId)))
    ∧ (∀ (m : TaskManager) (s : WsSender) (alive : Nat → Bool) (outputs : List Response)
          (k mx : Nat),
        response_id_range_of outputs = .ok (k, mx) →
        m.request_status k ≠ .pendingBatchMethodCall →
        into_task_step (.fromBack (.text (.response (.batch outputs)))) m s alive
          = .ok (m, s, [], .terminate (some .invalidRequestId)))
    ∧ (∀ (m : TaskManager) (s : WsSender) (alive : Nat → Bool) (raw : String),
        into_task_step (.fromBack (.text (.unknown raw))) m s alive
          = .ok (m, s, [], .keepGoing))
    ∧ (∀ (m : TaskManager) (s : WsSender) (alive : Nat → Bool) (n : SubNotif),
        m.get_request_id_by n.params.subscription = none →
        into_task_step (.fromBack (.text (.notification n))) m s alive
          = .ok (m, s, [], .keepGoing)) := by
  refine ⟨?_, ?_, ?_, ?_⟩
  · intro m s alive out n hid hstat
    rcases hstat with hstat | hstat | hstat <;>
      simp [into_task_step, handle_from_back_message, handle_response_message,
            handle_single_output, hid, hstat]
  · intro m s alive outputs k mx hrange hstat
    cases hs : m.request_status k with
    | pendingBatchMethodCall => exact absurd hs hstat
    | pendingMethodCall =>
        simp [into_task_step, handle_from_back_message, handle_response_message,
              handle_batch_output, hrange, hs]
    | pendingSubscription =>
        simp [into_task_step, handle_from_back_message, handle_response_message,
              handle_batch_output, hrange, hs]
    | activeSubscription =>
        simp [into_task_step, handle_from_back_message, handle_response_message,
              handle_batch_output, hrange, hs]
    | invalid =>
        simp [into_task_step, handle_from_back_message, handle_response_message,
              handle_batch_output, hrange, hs]
  · intro m s alive raw
    rfl
  · intro m s alive n h
    simp [into_task_step, handle_from_back_message,
          handle_subscription_notification_message, h]

/-- Claim C3 (witness): a concrete unmatched single response and a
concrete batch response whose min id has no pending batch entry each
terminate the task with `InvalidRequestId`. -/
theorem c3_witness :
    into_task_step (.fromBack (.text (.response (.single c3Out)))) (TaskManager.new 2)
        WsSender.new aliveNone
      = .ok (TaskManager.new 2, WsSender.new, [], .terminate (some .invalidRequestId))
    ∧ into_task_step (.fromBack (.text (.response (.batch c5Outputs)))) (TaskManager.new 2)
        WsSender.new aliveNone
      = .ok (TaskManager.new 2, WsSender.new, [], .terminate (some .invalidRequestId)) :=
  ⟨c3_error_localization.1 (TaskManager.new 2) WsSender.new aliveNone c3Out 5 rfl
      (Or.inr (Or.inr rfl)),
   c3_error_localization.2.1 (TaskManager.new 2) WsSender.new aliveNone c5Outputs 1 1 rfl
      (by decide)⟩

/-- Claim C4 (code bug): `response_id_of` panics via `.expect("Response ID
must be number")` on a present but non-numeric (string) response id,
instead of returning the `InvalidRequestId` error. -/
theorem c4_string_id_panics :
    response_id_of c4Out = .panicked "Response ID must be number" :=
  rfl

/-- Claim C9 (counterexample): `remove_active_subscription` does not
behave as a guarded no-op — on a state where the entry at the request id
is a `PendingMethodCall` and the index holds the subscription id, the
claim demands a panic-free no-op, but the code removes both entries and
hits `unreachable!`. -/
theorem c9_counterexample : ¬ removeMatchesSpecAt c9Bad 1 (Id.str "s") := by
  intro h
  have hcond : ¬ (isActiveAt c9Bad.requests 1 = true
      ∧ alookup (Id.str "s") c9Bad.subscriptions = some 1) := by decide
  have hval := h.2 hcond
  have hv : c9Bad.remove_active_subscription 1 (Id.str "s")
      = PResult.panicked "Kind must be ActiveSubscription; qed" := rfl
  rw [hv] at hval
  exact PResult.noConfusion hval

/-- Claim C9 (amended): `remove_active_subscription` removes both the
requests-table entry and the index entry exactly when the request id is
present in the requests table and the subscription id is present in the
index — regardless of whether the index maps the subscription id to this
request id; when both are present but the entry is not an
`ActiveSubscription` it panics via `unreachable!`; when either key is
absent it is a panic-free no-op. -/
theorem c9_remove_characterization (m : TaskManager) (rid : Nat) (sid : Id) :
    (alookup rid m.requests = none ∨ alookup sid m.subscriptions = none →
      m.remove_active_subscription rid sid = .ok (none, m))
    ∧ (∀ sink u r, alookup rid m.requests = some (.activeSubscription sink u) →
        alookup sid m.subscriptions = some r →
        ∃ m1, m.remove_active_subscription rid sid = .ok (some (sink, u), m1)
          ∧ alookup rid m1.requests = none
          ∧ alookup sid m1.subscriptions = none
          ∧ (∀ k, k ≠ rid → alookup k m1.requests = alookup k m.requests)
          ∧ (∀ t, t ≠ sid → alookup t m1.subscriptions = alookup t m.subscriptions))
    ∧ (∀ kind r, alookup rid m.requests = some kind → kind.isActive = false →
        alookup sid m.subscriptions = some r →
        m.remove_active_subscription rid sid
          = .panicked "Kind must be ActiveSubscription; qed") := by
  refine ⟨?_, ?_, ?_⟩
  · intro h
    rcases h with h | h
    · cases hs : alookup sid m.subscriptions <;>
        simp [TaskManager.remove_active_subscription, h, hs]
    · cases hr : alookup rid m.requests <;>
        simp [TaskManager.remove_active_subscription, h, hr]
  · intro sink u r hreq hsub
    refine ⟨{ m with requests := eraseKey rid m.requests,
                     subscriptions := eraseKey sid m.subscriptions }, ?_, ?_, ?_, ?_, ?_⟩
    · simp [TaskManager.remove_active_subscription, hreq, hsub]
    · exact alookup_eraseKey_self rid m.requests
    · exact alookup_eraseKey_self sid m.subscriptions
    · intro k hk
      exact alookup_eraseKey_ne hk m.requests
    · intro t ht
      exact alookup_eraseKey_ne ht m.subscriptions
  · intro kind r hreq hk hsub
    cases kind with
    | activeSubscription s0 u0 => simp [RequestKind.isActive] at hk
    | pendingMethodCall sb0 =>
        simp [TaskManager.remove_active_subscription, hreq, hsub]
    | pendingBatchMethodCall sb0 =>
        simp [TaskManager.remove_active_subscription, hreq, hsub]
    | pendingSubscription sb0 u0 =>
        simp [TaskManager.remove_active_subscription, hreq, hsub]

/-- Claim C9 (witness): on the concrete mismatched state, the amended
characterization yields the `unreachable!` panic. -/
theorem c9_witness :
    c9Bad.remove_active_subscription 1 (Id.str "s")
      = .panicked "Kind must be ActiveSubscription; qed" :=
  (c9_remove_characterization c9Bad 1 (Id.str "s")).2.2 (.pendingMethodCall 7) 1 rfl rfl rfl

/-- Claim C10: the batch panic branches are unreachable for non-empty
batches — the `.min().expect("must have one")` cannot fire for a
non-empty batch command and the `assert!(!outputs.is_empty())` holds for a
non-empty inbound batch response — while an empty batch command (with a
healthy socket) and an empty inbound batch response each reach their
respective panic. -/
theorem c10_batch_totality :
    (∀ (m : TaskManager) (s : WsSender) (alive : Nat → Bool)
        (batch : List (String × Option Params)) (sb : Nat),
        batch ≠ [] →
        handle_from_front_message (.batchRequest batch sb) m s alive
          ≠ .panicked "must have one")
    ∧ (∀ outputs : List Response, outputs ≠ [] →
        response_id_range_of outputs ≠ .panicked "assertion failed: !outputs.is_empty()")
    ∧ (∀ (m : TaskManager) (s : WsSender) (alive : Nat → Bool) (sb : Nat),
        s.sockOk = true →
        handle_from_front_message (.batchRequest [] sb) m s alive
          = .panicked "must have one")
    ∧ response_id_range_of [] = .panicked "assertion failed: !outputs.is_empty()" := by
  refine ⟨?_, ?_, ?_, rfl⟩
  · intro m s alive batch sb hne h
    simp only [handle_from_front_message] at h
    split at h
    · rename_i req_ids s1 heq
      have hid : req_ids = (assignBatch s batch).1 := send_batch_request_ok heq
      have hlen : req_ids.length = batch.length := by
        rw [hid, assignBatch_ids_length]
      have hnil : req_ids ≠ [] := by
        intro hh
        rw [hh] at hlen
        exact hne (List.length_eq_zero.mp hlen.symm)
      obtain ⟨k, hk⟩ := listMin_isSome hnil
      split at h
      · rename_i hmin
        rw [hk] at hmin
        exact Option.noConfusion hmin
      · split at h
        · exact PResult.noConfusion h
        · split at h
          · exact PResult.noConfusion h
          · injection h with h1
            exact absurd h1 (by decide)
    · rename_i e s1 heq
      split at h
      · exact PResult.noConfusion h
      · injection h with h1
        exact absurd h1 (by decide)
  · intro outputs hne h
    cases outputs with
    | nil => exact hne rfl
    | cons o t =>
        have h2 : rangeFold (o :: t) (u64size - 1) 0
            = .panicked "assertion failed: !outputs.is_empty()" := h
        exact absurd (rangeFold_panic_msg h2) (by decide)
  · intro m s alive sb hsock
    simp [handle_from_front_message, WsSender.send_batch_request, assignBatch,
          WsSender.send_message, hsock, renderBatch, listMin]

/-- Claim C10 (witness): a concrete empty batch command reaches the
`must have one` panic. -/
theorem c10_witness :
    handle_from_front_message (.batchRequest [] 5) (TaskManager.new 1) WsSender.new aliveAll
      = .panicked "must have one" :=
  c10_batch_totality.2.2.1 (TaskManager.new 1) WsSender.new aliveAll 5 rfl

/-- Claim C1 (amended): the spec's task-manager invariant holds in every
state reachable from a fresh manager when each `remove_active_subscription`
call pairs a subscription id with the request id the index returns for it
(or with an unindexed subscription id), which is how both call sites in
the connection task invoke it. -/
theorem c1_invariant_guarded (m : TaskManager) (h : GReach m) : Invariant m := by
  induction h with
  | init cap =>
      refine ⟨?_, ?_, ?_, ?_, ?_⟩ <;> simp [TaskManager.new, keysOf, Invariant]
  | step m0 op m1 hreach hguard happ ih =>
      cases op with
      | insPendingCall rid sb =>
          cases hal : alookup rid m0.requests with
          | none =>
              simp [applyOp, TaskManager.insert_pending_method_call, hal] at happ
              exact happ ▸ invariant_insert_nonactive ih hal rfl
          | some k =>
              simp [applyOp, TaskManager.insert_pending_method_call, hal] at happ
              exact happ ▸ ih
      | insPendingBatch rid sb =>
          cases hal : alookup rid m0.requests with
          | none =>
              simp [applyOp, TaskManager.insert_pending_batch_method_call, hal] at happ
              exact happ ▸ invariant_insert_nonactive ih hal rfl
          | some k =>
              simp [applyOp, TaskManager.insert_pending_batch_method_call, hal] at happ
              exact happ ▸ ih
      | insPendingSub rid sb u =>
          cases hal : alookup rid m0.requests with
          | none =>
              simp [applyOp, TaskManager.insert_pending_subscription, hal] at happ
              exact happ ▸ invariant_insert_nonactive ih hal rfl
          | some k =>
              simp [applyOp, TaskManager.insert_pending_subscription, hal] at happ
              exact happ ▸ ih
      | insActiveSub rid sid sink u =>
          cases hr : alookup rid m0.requests with
          | some k =>
              simp [applyOp, TaskManager.insert_active_subscription, hr] at happ
              exact happ ▸ ih
          | none =>
              cases hsb : alookup sid m0.subscriptions with
              | some r =>
                  simp [applyOp, TaskManager.insert_active_subscription, hr, hsb] at happ
                  exact happ ▸ ih
              | none =>
                  simp [applyOp, TaskManager.insert_active_subscription, hr, hsb] at happ
                  exact happ ▸ invariant_insert_active ih hr hsb
      | compPendingCall rid =>
          cases hal : alookup rid m0.requests with
          | none =>
              simp [applyOp, TaskManager.complete_pending_method_call, hal] at happ
              exact happ ▸ ih
          | some k =>
              cases k with
              | pendingMethodCall sb =>
                  simp [applyOp, TaskManager.complete_pending_method_call, hal] at happ
                  exact happ ▸ invariant_erase_nonactive ih hal rfl
              | pendingBatchMethodCall sb =>
                  simp [applyOp, TaskManager.complete_pending_method_call, hal] at happ
                  exact happ ▸ ih
              | pendingSubscription sb u =>
                  simp [applyOp, TaskManager.complete_pending_method_call, hal] at happ
                  exact happ ▸ ih
              | activeSubscription sink u =>
                  simp [applyOp, TaskManager.complete_pending_method_call, hal] at happ
                  exact happ ▸ ih
      | compPendingBatch rid =>
          cases hal : alookup rid m0.requests with
          | none =>
              simp [applyOp, TaskManager.complete_pending_batch_method_call, hal] at happ
              exact happ ▸ ih
          | some k =>
              cases k with
              | pendingMethodCall sb =>
                  simp [applyOp, TaskManager.complete_pending_batch_method_call, hal] at happ
                  exact happ ▸ ih
              | pendingBatchMethodCall sb =>
                  simp [applyOp, TaskManager.complete_pending_batch_method_call, hal] at happ
                  exact happ ▸ invariant_erase_nonactive ih hal rfl
              | pendingSubscription sb u =>
                  simp [applyOp, TaskManager.complete_pending_batch_method_call, hal] at happ
                  exact happ ▸ ih
              | activeSubscription sink u =>
                  simp [applyOp, TaskManager.complete_pending_batch_method_call, hal] at happ
                  exact happ ▸ ih
      | compPendingSub rid =>
          cases hal : alookup rid m0.requests with
          | none =>
              simp [applyOp, TaskManager.complete_pending_subscription, hal] at happ
              exact happ ▸ ih
          | some k =>
              cases k with
              | pendingMethodCall sb =>
                  simp [applyOp, TaskManager.complete_pending_subscription, hal] at happ
                  exact happ ▸ ih
              | pendingBatchMethodCall sb =>
                  simp [applyOp, TaskManager.complete_pending_subscription, hal] at happ
                  exact happ ▸ ih
              | pendingSubscription sb u =>
                  simp [applyOp, TaskManager.complete_pending_subscription, hal] at happ
                  exact happ ▸ invariant_erase_nonactive ih hal rfl
              | activeSubscription sink u =>
                  simp [applyOp, TaskManager.complete_pending_subscription, hal] at happ
                  exact happ ▸ ih
      | removeActiveSub rid sid =>
          have hg : alookup sid m0.subscriptions = none
              ∨ alookup sid m0.subscriptions = some rid := hguard
          rcases hg with hgn | hgs
          · cases hr : alookup rid m0.requests with
            | none =>
                simp [applyOp, TaskManager.remove_active_subscription, hr, hgn] at happ
                exact happ ▸ ih
            | some k =>
                simp [applyOp, TaskManager.remove_active_subscription, hr, hgn] at happ
                exact happ ▸ ih
          · have hact : isActiveAt m0.requests rid = true :=
              ih.2.1 (sid, rid) (mem_of_alookup_some hgs)
            cases hr : alookup rid m0.requests with
            | none =>
                unfold isActiveAt at hact
                rw [hr] at hact
                exact Bool.noConfusion hact
            | some k =>
                cases k with
                | activeSubscription sink u =>
                    simp [applyOp, TaskManager.remove_active_subscription, hr, hgs] at happ
                    exact happ ▸ invariant_remove_guarded ih hgs
                | pendingMethodCall sb =>
                    unfold isActiveAt at hact
                    rw [hr] at hact
                    exact Bool.noConfusion hact
                | pendingBatchMethodCall sb =>
                    unfold isActiveAt at hact
                    rw [hr] at hact
                    exact Bool.noConfusion hact
                | pendingSubscription sb u =>
                    unfold isActiveAt at hact
                    rw [hr] at hact
                    exact Bool.noConfusion hact

/-- Claim C1 (witness): a concrete one-step guarded trace reaching a state
with one active subscription satisfies the invariant. -/
theorem c1_witness :
    Invariant { requests := [(1, .activeSubscription sinkA "unsub_a")],
                subscriptions := [(Id.str "a", 1)],
                max_capacity_per_subscription := 4 } :=
  c1_invariant_guarded _
    (GReach.step (TaskManager.new 4) (.insActiveSub 1 (.str "a") sinkA "unsub_a") _
      (GReach.init 4) trivial rfl)

/-- Claim C5 (counterexample): a completed batch delivery whose response
length differs from the request length — the two-call batch `c5Batch` is
recorded under min id 1, and the one-output response `c5Outputs` (whose
min id is also 1) completes it and is delivered although its length 1
differs from the request length 2; the code never compares lengths. -/
theorem c5_length_counterexample :
    handle_from_front_message (.batchRequest c5Batch 9) (TaskManager.new 64) WsSender.new aliveAll
      = .ok (c5MgrAfter, c5SenderAfter, [])
    ∧ handle_batch_output c5Outputs c5MgrAfter aliveAll
      = .ok (TaskManager.new 64, [(9, .ok (.outputs c5Outputs))])
    ∧ c5Outputs.length = 1 ∧ c5Batch.length = 2 ∧ c5Outputs.length ≠ c5Batch.length :=
  ⟨rfl, rfl, rfl, rfl, by decide⟩

/-- Claim C5 (amended): for every batch request recorded under the minimum
`k` of its send-time ids whose one-shot is completed by a batch response,
the minimum id computed over the delivered outputs equals `k`, and the
delivered list is exactly the server's output list as received (its length
is not validated against the request length). -/
theorem c5_min_id_correlation
    (s : WsSender) (m : TaskManager) (alive : Nat → Bool)
    (batch : List (String × Option Params)) (sb : Nat) (ids : List Nat)
    (s1 : WsSender) (k : Nat) (outputs : List Response) (m2 : TaskManager) (v : ReplyValue)
    (hsend : s.send_batch_request batch = (.ok ids, s1))
    (hmin : listMin ids = some k)
    (hvac : alookup k m.requests = none)
    (hfresh : NoBatchToken m sb)
    (hdone : handle_batch_output outputs
        { m with requests := (k, .pendingBatchMethodCall sb) :: m.requests } alive
      = .ok (m2, [(sb, v)])) :
    handle_from_front_message (.batchRequest batch sb) m s alive
      = .ok ({ m with requests := (k, .pendingBatchMethodCall sb) :: m.requests }, s1, [])
    ∧ (∃ mx, response_id_range_of outputs = .ok (k, mx))
    ∧ v = .ok (.outputs outputs) := by
  constructor
  · simp [handle_from_front_message, hsend, hmin,
          TaskManager.insert_pending_batch_method_call, hvac]
  obtain ⟨kk, mx, hrange, hlook, hv, hm2⟩ := batch_completion_inversion hdone
  have hlook2 : alookup kk ((k, RequestKind.pendingBatchMethodCall sb) :: m.requests)
      = some (.pendingBatchMethodCall sb) := hlook
  have hkk : kk = k := by
    by_cases hh : kk = k
    · exact hh
    · exfalso
      rw [alookup_cons_ne (fun he => hh he.symm)] at hlook2
      exact hfresh kk hlook2
  subst hkk
  exact ⟨⟨mx, hrange⟩, hv⟩

/-- Claim C5 (witness): the concrete two-call batch recorded under min id
1, completed by a one-output response with min id 1. -/
theorem c5_witness :
    handle_from_front_message (.batchRequest c5Batch 9) (TaskManager.new 64) WsSender.new aliveAll
      = .ok ({ TaskManager.new 64 with requests := [(1, .pendingBatchMethodCall 9)] },
             c5SenderAfter, [])
    ∧ (∃ mx, response_id_range_of c5Outputs = .ok (1, mx))
    ∧ (ReplyValue.ok (.outputs c5Outputs)) = .ok (.outputs c5Outputs) :=
  c5_min_id_correlation WsSender.new (TaskManager.new 64) aliveAll c5Batch 9 [1, 2]
    c5SenderAfter 1 c5Outputs (TaskManager.new 64) (.ok (.outputs c5Outputs))
    rfl rfl rfl (fun rid hh => by simp [TaskManager.new, alookup] at hh) rfl

/-- Claim C6: routing of an inbound subscription notification — if the
index holds no entry for the notification's subscription id the state is
unchanged; otherwise the engine `try_send`s into the `ActiveSubscription`
sink, and on failure (full or disconnected) removes both the entry and the
index mapping, leaving everything else untouched. -/
theorem c6_notification_routing (m : TaskManager) (n : SubNotif) :
    (m.get_request_id_by n.params.subscription = none →
      handle_subscription_notification_message n m = .ok m)
    ∧ (∀ rid sink u, m.get_request_id_by n.params.subscription = some rid →
        alookup rid m.requests = some (.activeSubscription sink u) →
        (∀ sink1, sink.try_send n = .ok sink1 →
          handle_subscription_notification_message n m = .ok (m.set_active_sink rid sink1))
        ∧ (sink.try_send n = .error () →
          ∃ m1, handle_subscription_notification_message n m = .ok m1
            ∧ alookup rid m1.requests = none
            ∧ alookup n.params.subscription m1.subscriptions = none
            ∧ (∀ k, k ≠ rid → alookup k m1.requests = alookup k m.requests)
            ∧ (∀ t, t ≠ n.params.subscription →
                alookup t m1.subscriptions = alookup t m.subscriptions))) := by
  constructor
  · intro h
    simp [handle_subscription_notification_message, h]
  · intro rid sink u hidx hreq
    constructor
    · intro sink1 hts
      simp [handle_subscription_notification_message, hidx,
            TaskManager.as_active_subscription, hreq, hts]
    · intro hts
      have hidx2 : alookup n.params.subscription m.subscriptions = some rid := hidx
      refine ⟨{ m with requests := eraseKey rid m.requests,
                       subscriptions := eraseKey n.params.subscription m.subscriptions },
              ?_, alookup_eraseKey_self rid m.requests,
              alookup_eraseKey_self n.params.subscription m.subscriptions, ?_, ?_⟩
      · simp [handle_subscription_notification_message, hidx,
              TaskManager.as_active_subscription, hreq, hts,
              TaskManager.remove_active_subscription, hidx2]
      · intro k hk
        exact alookup_eraseKey_ne hk m.requests
      · intro t ht
        exact alookup_eraseKey_ne ht m.subscriptions

/-- Claim C6 (witness): a concrete notification for a full channel drops
the subscription — both the entry and the index mapping are removed. -/
theorem c6_witness :
    ∃ m1, handle_subscription_notification_message c6Notif c6Mgr = .ok m1
      ∧ alookup 3 m1.requests = none
      ∧ alookup c6Notif.params.subscription m1.subscriptions = none
      ∧ (∀ k, k ≠ 3 → alookup k m1.requests = alookup k c6Mgr.requests)
      ∧ (∀ t, t ≠ c6Notif.params.subscription →
          alookup t m1.subscriptions = alookup t c6Mgr.subscriptions) :=
  ((c6_notification_routing c6Mgr c6Notif).2 3 c6SinkFull "unsub" rfl rfl).2 rfl

/-- Claim C7: completion of a pending unsubscribe in the client-crate
engine — on a `Success` output the result is parsed as a boolean and
replied to the caller; when it is `true` the engine resolves the request
id of the referenced `ActiveSubscription` through the subscription index
and removes both the entry and the index mapping; on a `Failure` output
the one-shot is failed with `InvalidUnsubscribeResult`. -/
theorem c7_unsubscribe_completion
    (m : CTaskManager) (rid : Nat) (sid : Id) (sb : Nat) (alive : Nat → Bool)
    (hpend : alookup rid m.requests = some (.pendingUnsubscribe sid sb))
    (halive : alive sb = true) :
    (∀ err, chandle_single_output (.failure { error := err, id := some (.num rid) }) m alive
        = .ok ({ m with requests := eraseKey rid m.requests },
               [(sb, .err .invalidUnsubscribeResult)]))
    ∧ (chandle_single_output (.success { result := .bool false, id := .num rid }) m alive
        = .ok ({ m with requests := eraseKey rid m.requests }, [(sb, .ok (.boolean false))]))
    ∧ (∀ rid2 sink, alookup sid m.subscriptions = some rid2 → rid2 ≠ rid →
        alookup rid2 m.requests = some (.activeSubscription sink) →
        ∃ m2, chandle_single_output (.success { result := .bool true, id := .num rid }) m alive
            = .ok (m2, [(sb, .ok (.boolean true))])
          ∧ alookup rid2 m2.requests = none
          ∧ alookup sid m2.subscriptions = none) := by
  refine ⟨?_, ?_, ?_⟩
  · intro err
    simp [chandle_single_output, response_id_of, Response.id, Id.as_number,
          CTaskManager.request_status, hpend, CTaskManager.complete_pending_unsubscribe,
          halive]
  · simp [chandle_single_output, response_id_of, Response.id, Id.as_number,
          CTaskManager.request_status, hpend, CTaskManager.complete_pending_unsubscribe,
          halive, parseJsonAsBool]
  · intro rid2 sink hidx hne hact
    have hm1req : alookup rid2 (eraseKey rid m.requests)
        = some (.activeSubscription sink) := by
      rw [alookup_eraseKey_ne hne]
      exact hact
    refine ⟨{ m with requests := eraseKey rid2 (eraseKey rid m.requests),
                     subscriptions := eraseKey sid m.subscriptions }, ?_,
            alookup_eraseKey_self rid2 (eraseKey rid m.requests),
            alookup_eraseKey_self sid m.subscriptions⟩
    simp [chandle_single_output, response_id_of, Response.id, Id.as_number,
          CTaskManager.request_status, hpend, CTaskManager.complete_pending_unsubscribe,
          halive, parseJsonAsBool, CTaskManager.get_request_id_by, hidx,
          CTaskManager.remove_active_subscription, hm1req]

/-- Claim C7 (witness): a concrete `true` unsubscribe response removes the
referenced active subscription and its index entry. -/
theorem c7_witness :
    ∃ m2, chandle_single_output (.success { result := .bool true, id := .num 5 }) c7Mgr aliveAll
        = .ok (m2, [(11, .ok (.boolean true))])
      ∧ alookup 3 m2.requests = none
      ∧ alookup (Id.str "x") m2.subscriptions = none :=
  (c7_unsubscribe_completion c7Mgr 5 (.str "x") 11 aliveAll rfl rfl).2.2 3 (Sink.new 2)
    rfl (by decide) rfl

/-- Claim C8: the id counter starts at 1 on a fresh connection; each
single request consumes one id and each call of a batch consumes one id,
incrementing by 1 with 64-bit wrapping; a `MethodCall` serializes with
`jsonrpc: "2.0"`, the assigned integer id, and the `params` field omitted
when absent — the first `request("foo", None)` emits exactly the S1 wire
text. -/
theorem c8_id_assignment_serialization :
    WsSender.new.id = 1
    ∧ (∀ (s : WsSender) (method : String) (params : Option Params),
        (s.send_request method params).2.id = (s.id + 1) % u64size
        ∧ (s.sockOk = true → (s.send_request method params).1 = .ok s.id))
    ∧ (∀ (s : WsSender) (batch : List (String × Option Params)), s.id < u64size →
        (assignBatch s batch).1
            = (List.range batch.length).map (fun i => (s.id + i) % u64size)
        ∧ (assignBatch s batch).2.2.id = (s.id + batch.length) % u64size)
    ∧ (WsSender.new.send_request "foo" none).1 = .ok 1
    ∧ (WsSender.new.send_request "foo" none).2.sent = [.text c8WireS1]
    ∧ (WsSender.new.send_request "bar" (some (.arr []))).2.sent = [.text c8WireS2] := by
  refine ⟨rfl, ?_, ?_, rfl, rfl, rfl⟩
  · intro s method params
    constructor
    · by_cases h : s.sockOk <;> simp [WsSender.send_request, WsSender.send_message, h]
    · intro h
      simp [WsSender.send_request, WsSender.send_message, h]
  · intro s batch h
    exact assignBatch_spec s batch h

/-- Claim C8 (witness): concrete id consumption for a single request and
for the two-call batch, from a fresh connection. -/
theorem c8_witness :
    (WsSender.new.send_request "m" none).2.id = (WsSender.new.id + 1) % u64size
    ∧ (assignBatch WsSender.new c5Batch).1
        = (List.range c5Batch.length).map (fun i => (WsSender.new.id + i) % u64size) :=
  ⟨(c8_id_assignment_serialization.2.1 WsSender.new "m" none).1,
   (c8_id_assignment_serialization.2.2.1 WsSender.new c5Batch (by decide)).1⟩

end AsyncJsonrpc
